import Mathlib

set_option maxRecDepth 100000

/-!
Verification of the Ember Mug custom integration
(`custom_components/ember_mug/__init__.py` and
`custom_components/ember_mug/sensor.py`).

The coordinator's supervisor task `MugDataUpdateCoordinator._run` is embedded
as a trace-producing interpreter: every awaited mug/transport operation is a
potential suspension point at which an exception may be raised.  A `Oracle`
decides, per awaited operation (numbered in execution order), whether that
operation completes normally, raises an `Exception`-class error, or delivers
an `asyncio.CancelledError` (which the `except Exception` clause does not
catch).  The infinite `while self._loop` loop is observed through a fuel
parameter: within a single task nothing ever sets `self._loop` to `False`
before the loop body raises, so the condition is always true and the fuel
only bounds how many full cycles we observe.

Synchronous statements (`self.mug.updates_queued.clear()`, logging, the
debug-dict comprehension) are not suspension points; `clear()` is recorded as
an event, logging is elided.
-/

/-- Observable events of the coordinator and its supervisor task, in the
vocabulary of the source: awaited mug operations, the synchronous clearing of
the dirty queue, the scheduling of a restart task in the `except` handler,
and the scheduling of a coordinator refresh (`async_refresh`), which is what
publishes a snapshot to the platform's listeners. -/
inductive Ev where
  | disconnect
  | ensureConnected
  | getServices
  | updateAll
  | clearQueued
  | updateQueued
  | sleep (secs : Nat)
  | scheduleRestart
  | scheduleRefresh
  deriving DecidableEq

/-- Exception classes relevant to `_run`: `err` stands for any
`Exception`-class error (caught by `except Exception`), `cancelled` for
`asyncio.CancelledError`, which derives from `BaseException` and is not
caught by the handler. -/
inductive Exn where
  | err
  | cancelled
  deriving DecidableEq

/-- For each awaited operation, numbered in execution order from 0, the
oracle says whether it completes (`none`) or raises. -/
def Oracle := Nat → Option Exn

/-- Result of executing a fragment of the task: either normal completion or
an in-flight exception, together with the next operation number and the
trace of events so far. -/
inductive Res (α : Type) where
  | ok : α → Nat → List Ev → Res α
  | exn : Exn → Nat → List Ev → Res α
  deriving DecidableEq

/-- A computation over the operation counter and event trace. -/
def M (α : Type) := Nat → List Ev → Res α

/-- Sequencing: run `a`; on normal completion run `b`, otherwise propagate
the in-flight exception (Python's statement sequencing). -/
def M.andThen (a : M Unit) (b : M Unit) : M Unit := fun k tr =>
  match a k tr with
  | .ok _ k2 tr2 => b k2 tr2
  | .exn e k2 tr2 => .exn e k2 tr2

/-- An awaited operation: a suspension point at which the oracle may raise. -/
def awaitOp (om : Oracle) (e : Ev) : M Unit := fun k tr =>
  match om k with
  | none => .ok () (k + 1) (tr ++ [e])
  | some ex => .exn ex (k + 1) tr

/-- A synchronous, non-raising statement that we record as an event. -/
def emitEv (e : Ev) : M Unit := fun k tr => .ok () k (tr ++ [e])

/-- The no-op computation. -/
def M.done : M Unit := fun k tr => .ok () k tr

/-- The dirty-poll window body, `for _ in range(150)` unrolled by count
(source lines 125-128): `ensure_connected()`, `update_queued_attributes()`,
`asyncio.sleep(2)`. -/
def dirtyLoop (om : Oracle) : Nat → M Unit
  | 0 => M.done
  | n + 1 =>
    (awaitOp om .ensureConnected).andThen
      ((awaitOp om .updateQueued).andThen
        ((awaitOp om (.sleep 2)).andThen (dirtyLoop om n)))

/-- One pass of `while self._loop` (source lines 119-128), iterated `fuel`
times: `ensure_connected()`, `update_all()`, `updates_queued.clear()`, then
the 150-iteration dirty-poll window. -/
def mainLoop (om : Oracle) : Nat → M Unit
  | 0 => M.done
  | n + 1 =>
    (awaitOp om .ensureConnected).andThen
      ((awaitOp om .updateAll).andThen
        ((emitEv .clearQueued).andThen
          ((dirtyLoop om 150).andThen (mainLoop om n))))

/-- The body of the `try` block of `_run` (source lines 96-128): defensive
`disconnect()`, `ensure_connected()`, `client.get_services()`, then the
polling loop. -/
def runBody (om : Oracle) (fuel : Nat) : M Unit :=
  (awaitOp om .disconnect).andThen
    ((awaitOp om .ensureConnected).andThen
      ((awaitOp om .getServices).andThen (mainLoop om fuel)))

/-- The `except Exception` handler of `_run` (source lines 130-136): log
(elided), set `self._loop = False`, `await self.mug.disconnect()`, then
`hass.async_create_task(self._run())`.  Per the spec, `disconnect()` never
fails observably, so the handler raises nothing. -/
def runHandler : M Unit :=
  (emitEv .disconnect).andThen (emitEv .scheduleRestart)

/-- The `finally` block of `_run` (source lines 137-138):
`await self.mug.disconnect()`. -/
def runFinally : M Unit := emitEv .disconnect

/-- Python `try`/`except Exception`/`finally` semantics: on normal body
completion run `fin`; on an `Exception`-class error run the handler and then
`fin`, swallowing the error (and propagating anything the handler itself
raises); on a `BaseException`-class cancellation run `fin` and re-raise. -/
def tryExceptFinally (body handler fin : M Unit) : M Unit := fun k tr =>
  match body k tr with
  | .ok a k1 tr1 =>
    match fin k1 tr1 with
    | .ok _ k2 tr2 => .ok a k2 tr2
    | .exn e k2 tr2 => .exn e k2 tr2
  | .exn .err k1 tr1 =>
    match handler k1 tr1 with
    | .ok _ k2 tr2 =>
      match fin k2 tr2 with
      | .ok b k3 tr3 => .ok b k3 tr3
      | .exn e k3 tr3 => .exn e k3 tr3
    | .exn e k2 tr2 =>
      match fin k2 tr2 with
      | .ok _ k3 tr3 => .exn e k3 tr3
      | .exn e2 k3 tr3 => .exn e2 k3 tr3
  | .exn .cancelled k1 tr1 =>
    match fin k1 tr1 with
    | .ok _ k2 tr2 => .exn .cancelled k2 tr2
    | .exn e2 k2 tr2 => .exn e2 k2 tr2

/-- `MugDataUpdateCoordinator._run` (source lines 94-138). -/
def runTask (om : Oracle) (fuel : Nat) : M Unit :=
  tryExceptFinally (runBody om fuel) runHandler runFinally

/-- Execute one invocation of `_run` from a fresh task state. -/
def runExec (om : Oracle) (fuel : Nat) : Res Unit :=
  runTask om fuel 0 []

/-- The event trace of a finished (or exceptionally exited) execution. -/
def Res.trace : Res α → List Ev
  | .ok _ _ tr => tr
  | .exn _ _ tr => tr

/-- The trace of one `_run` invocation. -/
def runTraceOf (om : Oracle) (fuel : Nat) : List Ev :=
  (runExec om fuel).trace

/-- The trace of the `try`-block body alone (before handler/finally). -/
def runBodyTraceOf (om : Oracle) (fuel : Nat) : List Ev :=
  (runBody om fuel 0 []).trace

/-- The oracle under which every awaited operation succeeds. -/
def oracleOk : Oracle := fun _ => none

/-- `l` repeated `n` times, concatenated. -/
def repeatEvs : Nat → List Ev → List Ev
  | 0, _ => []
  | n + 1, l => l ++ repeatEvs n l

/-- One dirty-poll iteration's events. -/
def dirtyIterEvs : List Ev := [.ensureConnected, .updateQueued, .sleep 2]

/-- One full cycle's events: full poll then the 150-iteration dirty window. -/
def cycleEvs : List Ev :=
  [.ensureConnected, .updateAll, .clearQueued] ++ repeatEvs 150 dirtyIterEvs

/-- The events before the loop: defensive disconnect, connect, service
discovery. -/
def preambleEvs : List Ev := [.disconnect, .ensureConnected, .getServices]

theorem dirtyLoop_ok (n : Nat) : ∀ (k : Nat) (tr : List Ev),
    dirtyLoop oracleOk n k tr = .ok () (k + 3 * n) (tr ++ repeatEvs n dirtyIterEvs) := by
  induction n with
  | zero => intro k tr; simp [dirtyLoop, M.done, repeatEvs]
  | succ n ih =>
    intro k tr
    simp only [dirtyLoop, M.andThen, awaitOp, oracleOk]
    rw [ih]
    have hk : k + 1 + 1 + 1 + 3 * n = k + 3 * (n + 1) := by omega
    rw [hk]
    simp [repeatEvs, dirtyIterEvs, List.append_assoc]

theorem mainLoop_ok (n : Nat) : ∀ (k : Nat) (tr : List Ev),
    mainLoop oracleOk n k tr = .ok () (k + 452 * n) (tr ++ repeatEvs n cycleEvs) := by
  induction n with
  | zero => intro k tr; simp [mainLoop, M.done, repeatEvs]
  | succ n ih =>
    intro k tr
    simp only [mainLoop, M.andThen, awaitOp, emitEv, oracleOk]
    rw [dirtyLoop_ok]
    dsimp only
    rw [ih]
    have hk : k + 1 + 1 + 3 * 150 + 452 * n = k + 452 * (n + 1) := by omega
    rw [hk]
    simp [repeatEvs, cycleEvs, List.append_assoc]

theorem runBody_ok (fuel : Nat) :
    runBody oracleOk fuel 0 [] =
      .ok () (3 + 452 * fuel) (preambleEvs ++ repeatEvs fuel cycleEvs) := by
  simp only [runBody, M.andThen, awaitOp, oracleOk]
  rw [mainLoop_ok]
  simp [preambleEvs]

/-- The `_sync_callback` of the coordinator (source lines 65-67): it only
schedules `self.async_refresh()` as a task; that refresh is the sole path by
which a new snapshot is published to the platform's listeners. -/
def sync_callback_events : List Ev := [.scheduleRefresh]

/-- The coordinator's published data dict (`self.data`): keys of the dict
built at source lines 56-63 and 71-78. -/
structure CoordinatorData where
  mug_id : Option String
  serial_number : Option String
  last_read_time : Option Nat
  sw_version : Option String
  mug_name : String
  model : String
  deriving DecidableEq

/-- The default data assigned in `MugDataUpdateCoordinator.__init__`
(source lines 56-63). -/
def initial_coordinator_data : CoordinatorData :=
  { mug_id := none
    serial_number := none
    last_read_time := none
    sw_version := none
    mug_name := "Ember Mug"
    model := "Ember Mug" }

/-- Modelled from the spec: the `EmberMug` driver (`mug.py`, which is not
under `src/`) exposes read-only accessors `mug_id`, `serial_number`,
`firmware_info` version, `mug_name` and `model`, and — per the data-model
section — tracks the time of the last successful attribute read from the
device.  `firmware_version` stands for `str(firmware_info.get("version", ""))`. -/
structure MugView where
  mug_id : Option String
  serial_number : Option String
  firmware_version : String
  mug_name : String
  model : String
  lastSuccessfulReadTime : Option Nat
  deriving DecidableEq

/-- `MugDataUpdateCoordinator._async_update_data` (source lines 69-80):
builds the published dict from the mug's accessors, with
`last_read_time` set to `dt_util.utcnow()` — the wall-clock time `now` at
which the snapshot is assembled. -/
def async_update_data (mug : MugView) (now : Nat) : CoordinatorData :=
  { mug_id := mug.mug_id
    serial_number := mug.serial_number
    last_read_time := some now
    sw_version := some mug.firmware_version
    mug_name := mug.mug_name
    model := mug.model }

/-- The two coordinator fields `EmberMugSensorBase.available` reads
(sensor.py lines 61-66). -/
structure CoordView where
  last_update_success : Bool
  mug_is_connected : Bool

/-- `EmberMugSensorBase.available` (sensor.py lines 61-66):
`self.coordinator.last_update_success and self.coordinator.mug.is_connected`. -/
def sensorAvailable (c : CoordView) : Bool :=
  c.last_update_success && c.mug_is_connected

/-- `homeassistant.const.TEMP_CELSIUS`. -/
def TEMP_CELSIUS : String := "°C"

/-- `homeassistant.const.TEMP_FAHRENHEIT`. -/
def TEMP_FAHRENHEIT : String := "°F"

/-- `MugDataUpdateCoordinator.__init__` (source lines 40-44): the
coordinator's `unit_of_measurement` is `TEMP_FAHRENHEIT` when the literal
`"F"` occurs in the configured temperature-unit string, else `TEMP_CELSIUS`. -/
def coordinator_unit_of_measurement (conf_temperature_unit : String) : String :=
  if conf_temperature_unit.contains 'F' then TEMP_FAHRENHEIT else TEMP_CELSIUS

/-- The `temp_unit` computed in `sensor.async_setup_entry`
(sensor.py lines 162-164): compares the coordinator's unit string against
the bare literal `"F"`. -/
def setup_temp_unit (coordinator_unit : String) : String :=
  if coordinator_unit == "F" then TEMP_FAHRENHEIT else TEMP_CELSIUS

/-- A temperature sensor entity as constructed in `sensor.async_setup_entry`:
its temp type (`"target"` or `"current"`) and its
`_attr_native_unit_of_measurement`. -/
structure TempSensor where
  temp_type : String
  native_unit_of_measurement : String
  deriving DecidableEq

/-- The two `EmberMugTemperatureSensor` entities created in
`sensor.async_setup_entry` (sensor.py lines 165-170). -/
def setup_temp_sensors (coordinator_unit : String) : List TempSensor :=
  [{ temp_type := "target", native_unit_of_measurement := setup_temp_unit coordinator_unit },
   { temp_type := "current", native_unit_of_measurement := setup_temp_unit coordinator_unit }]

/-- The integration-level state that `async_unload_entry` could touch:
whether the entry is registered in `hass.data[DOMAIN]`, whether the mug's
BLE link is up, whether the coordinator's `_run` task is scheduled/running,
and the coordinator's `_loop` flag. -/
structure IntegrationState where
  hasEntry : Bool
  mugConnected : Bool
  taskRunning : Bool
  loopFlag : Bool
  deriving DecidableEq

/-- `async_unload_entry` (source lines 152-158): given the platform-unload
result `unload_ok`, on success it pops the entry from `hass.data[DOMAIN]` and
awaits `mug.disconnect()`; it returns `unload_ok`.  It performs no other
action: in particular it never references the `_run` task (whose handle was
discarded at creation) nor the `_loop` flag.  The returned event list records
the mug operations it performs. -/
def async_unload_entry (unload_ok : Bool) (s : IntegrationState) :
    Bool × IntegrationState × List Ev :=
  if unload_ok then
    (true, { s with hasEntry := false, mugConnected := false }, [.disconnect])
  else
    (false, s, [])

/-- Oracle raising an `Exception`-class error at the fourth awaited
operation, i.e. the first `ensure_connected()` of the polling loop. -/
def oracleErrAt3 : Oracle := fun k => if k == 3 then some .err else none

/-- Concrete mug state whose last successful attribute read happened at
time 5. -/
def mugReadAt5 : MugView :=
  { mug_id := some "mug-id-1"
    serial_number := some "serial-1"
    firmware_version := "1.2.3"
    mug_name := "Ember Mug"
    model := "Ember Mug"
    lastSuccessfulReadTime := some 5 }

/-- Claim C1: any `Exception`-class error raised at any awaited step of the
supervisor task — the defensive disconnect, connect, service discovery, full
poll, or dirty-poll window — is caught at the task's outermost `except`
boundary and not propagated to the task's caller (the result is `ok`); the
handler disconnects the session and schedules a restart of the whole task,
with nothing (in particular no sleep) between the catch and the restart. -/
theorem C1_error_caught_disconnect_and_immediate_restart
    (om : Oracle) (fuel k : Nat) (tr : List Ev)
    (h : runBody om fuel 0 [] = .exn .err k tr) :
    runExec om fuel = .ok () k (tr ++ [.disconnect, .scheduleRestart, .disconnect]) := by
  unfold runExec runTask tryExceptFinally
  rw [h]
  simp [runHandler, runFinally, M.andThen, emitEv, List.append_assoc]

/-- Witness for C1: under `oracleErrAt3` the loop's first `ensure_connected`
raises; the task swallows the error, disconnects and schedules an immediate
restart. -/
theorem C1_witness :
    runBody oracleErrAt3 1 0 [] = .exn .err 4 [.disconnect, .ensureConnected, .getServices] ∧
    runExec oracleErrAt3 1 =
      .ok () 4 [.disconnect, .ensureConnected, .getServices,
                .disconnect, .scheduleRestart, .disconnect] :=
  ⟨by decide,
   C1_error_caught_disconnect_and_immediate_restart oracleErrAt3 1 4
     [.disconnect, .ensureConnected, .getServices] (by decide)⟩

/-- Claim C2: in every cycle of the supervisor loop under fault-free
execution, a full poll (`update_all`) is followed immediately by clearing all
queued dirty flags, and then by exactly 150 dirty-poll iterations, each being
`ensure_connected`, `update_queued_attributes`, `sleep 2`, before the next
cycle's full poll begins. -/
theorem C2_cycle_structure (fuel : Nat) :
    runBody oracleOk fuel 0 [] =
      .ok () (3 + 452 * fuel)
        ([.disconnect, .ensureConnected, .getServices] ++
          repeatEvs fuel
            ([.ensureConnected, .updateAll, .clearQueued] ++
              repeatEvs 150 [.ensureConnected, .updateQueued, .sleep 2])) := by
  have h := runBody_ok fuel
  simpa [preambleEvs, cycleEvs, dirtyIterEvs] using h

theorem count_repeatEvs (a : Ev) (n : Nat) (l : List Ev) :
    (repeatEvs n l).count a = n * l.count a := by
  induction n with
  | zero => simp [repeatEvs]
  | succ n ih => simp [repeatEvs, List.count_append, ih]; ring

theorem runTrace_ok_shape (fuel : Nat) :
    runTraceOf oracleOk fuel = preambleEvs ++ repeatEvs fuel cycleEvs ++ [.disconnect] := by
  unfold runTraceOf runExec runTask tryExceptFinally
  rw [runBody_ok]
  simp [runFinally, emitEv, Res.trace]

/-- Counterexample to Claim C3: a fault-free execution observing one full
cycle performs one `update_all` but schedules no coordinator refresh at all —
the supervisor loop never publishes a snapshot after a full poll. -/
theorem C3_counterexample :
    (runTraceOf oracleOk 1).count .updateAll = 1 ∧
    (runTraceOf oracleOk 1).count .scheduleRefresh = 0 := by
  rw [runTrace_ok_shape]
  refine ⟨?_, ?_⟩ <;> decide

/-- Amended C3: the supervisor loop performs one full poll per cycle but
never itself publishes (schedules `async_refresh`); a snapshot is published
to the platform's listeners only out-of-band, via the mug's notification
sync callback (`_sync_callback`), which schedules exactly one refresh each
time it fires. -/
theorem C3_amended_publish_only_via_sync_callback (fuel : Nat) :
    (runTraceOf oracleOk fuel).count .updateAll = fuel ∧
    (runTraceOf oracleOk fuel).count .scheduleRefresh = 0 ∧
    sync_callback_events.count .scheduleRefresh = 1 := by
  rw [runTrace_ok_shape]
  have h1 : preambleEvs.count Ev.updateAll = 0 := by decide
  have h2 : cycleEvs.count Ev.updateAll = 1 := by decide
  have h3 : preambleEvs.count Ev.scheduleRefresh = 0 := by decide
  have h4 : cycleEvs.count Ev.scheduleRefresh = 0 := by decide
  have h5 : List.count Ev.updateAll [Ev.disconnect] = 0 := by decide
  have h6 : List.count Ev.scheduleRefresh [Ev.disconnect] = 0 := by decide
  refine ⟨?_, ?_, by decide⟩ <;>
    simp [List.count_append, count_repeatEvs, h1, h2, h3, h4, h5, h6]

/-- Counterexample to Claim C4: in a fault-free execution observing two full
cycles, two full polls happen but only one disconnect — the very first event
of the task — so no defensive disconnect precedes the second full-poll cycle. -/
theorem C4_counterexample :
    (runBodyTraceOf oracleOk 2).count .updateAll = 2 ∧
    (runBodyTraceOf oracleOk 2).count .disconnect = 1 ∧
    ((runBodyTraceOf oracleOk 2).drop 1).count .disconnect = 0 := by
  have h : runBodyTraceOf oracleOk 2 = preambleEvs ++ repeatEvs 2 cycleEvs := by
    unfold runBodyTraceOf
    rw [runBody_ok]
    rfl
  rw [h]
  have h1 : cycleEvs.count Ev.updateAll = 1 := by decide
  have h2 : cycleEvs.count Ev.disconnect = 0 := by decide
  refine ⟨?_, ?_, ?_⟩ <;>
    simp [preambleEvs, List.count_append, count_repeatEvs, h1, h2, List.count_cons]

/-- Amended C4: the defensive `disconnect()` precedes only the start of a
task invocation (initial start or restart after a caught error); after the
dirty-poll window, control returns to `ensure_connected` at the top of the
`while` loop, and no cycle contains a disconnect. -/
theorem C4_amended_disconnect_only_at_task_start (fuel : Nat) :
    runBodyTraceOf oracleOk fuel = preambleEvs ++ repeatEvs fuel cycleEvs ∧
    preambleEvs.count .disconnect = 1 ∧
    cycleEvs.count .disconnect = 0 := by
  refine ⟨?_, by decide, by decide⟩
  unfold runBodyTraceOf
  rw [runBody_ok]
  rfl

/-- Claim C5: on every exit path of the supervisor task — fault-free
completion of the observed cycles, a caught `Exception`-class error, or a
propagated cancellation — the `finally` block runs and the last action is a
`disconnect()` of the mug. -/
theorem C5_disconnect_on_every_exit (om : Oracle) (fuel : Nat) :
    (runTraceOf om fuel).getLast? = some .disconnect := by
  unfold runTraceOf runExec runTask tryExceptFinally
  cases h : runBody om fuel 0 [] with
  | ok a k tr =>
    simp [runFinally, emitEv, Res.trace]
  | exn e k tr =>
    cases e <;> simp [runHandler, runFinally, M.andThen, emitEv, Res.trace]

/-- Claim C6 (code bug): a successful `async_unload_entry` calls the mug's
`disconnect()` exactly once and schedules no restart, but it leaves the
supervisor task and its `_loop` flag untouched — the task handle was
discarded at creation and nothing cancels it — so after unload the per-mug
polling loop is still running; concretely, from a state where the task is
running, it is still running after a successful unload. -/
theorem C6_unload_does_not_stop_the_loop :
    (∀ s : IntegrationState,
      ((async_unload_entry true s).2.1).taskRunning = s.taskRunning ∧
      ((async_unload_entry true s).2.1).loopFlag = s.loopFlag ∧
      ((async_unload_entry true s).2.2).count .disconnect = 1 ∧
      ((async_unload_entry true s).2.2).count .scheduleRestart = 0) ∧
    ((async_unload_entry true
        { hasEntry := true, mugConnected := true,
          taskRunning := true, loopFlag := true }).2.1).taskRunning = true := by
  refine ⟨fun s => ⟨?_, ?_, ?_, ?_⟩, rfl⟩ <;> simp [async_unload_entry]

/-- Claim C7: a sensor entity reports itself available exactly when the
coordinator's last update succeeded and the mug is currently connected; in
particular while disconnected it is unavailable. -/
theorem C7_available_iff (c : CoordView) :
    sensorAvailable c = true ↔
      (c.last_update_success = true ∧ c.mug_is_connected = true) := by
  simp [sensorAvailable, Bool.and_eq_true]

/-- Counterexample to Claim C8: a snapshot assembled at time 10 from a mug
whose last successful attribute read was at time 5 has `last_read_time = 10`
— the assembly time, not the last successful read time. -/
theorem C8_counterexample :
    mugReadAt5.lastSuccessfulReadTime = some 5 ∧
    (async_update_data mugReadAt5 10).last_read_time = some 10 ∧
    (async_update_data mugReadAt5 10).last_read_time ≠ mugReadAt5.lastSuccessfulReadTime := by
  refine ⟨rfl, rfl, ?_⟩
  decide

/-- Amended C8: the published snapshot's `last_read_time` field always
records the wall-clock time at which `_async_update_data` assembled the
snapshot (`dt_util.utcnow()`), regardless of when the last successful
attribute read from the device happened. -/
theorem C8_amended_last_read_time_is_assembly_time (mug : MugView) (now : Nat) :
    (async_update_data mug now).last_read_time = some now := rfl

/-- Claim C9: whatever temperature-unit string is configured ('F', 'C' or
anything else), both temperature sensor entities created at setup carry
`TEMP_CELSIUS` as their native unit, because the coordinator stores the
already-converted string `"°F"`/`"°C"` and setup compares it with the bare
literal `"F"`. -/
theorem C9_temp_sensors_always_celsius (conf_temperature_unit : String) :
    (setup_temp_sensors (coordinator_unit_of_measurement conf_temperature_unit)).all
      (fun s => s.native_unit_of_measurement == TEMP_CELSIUS) = true := by
  unfold setup_temp_sensors setup_temp_unit coordinator_unit_of_measurement
  by_cases h : conf_temperature_unit.contains 'F' <;> simp [h] <;> decide

/-- Claim C10: the data assigned at construction time, before any successful
update, is the fixed default snapshot: `mug_name` and `model` are both
`"Ember Mug"`, and `mug_id`, `serial_number`, `last_read_time` and
`sw_version` are all `None`. -/
theorem C10_default_data_before_first_update :
    initial_coordinator_data.mug_name = "Ember Mug" ∧
    initial_coordinator_data.model = "Ember Mug" ∧
    initial_coordinator_data.mug_id = none ∧
    initial_coordinator_data.serial_number = none ∧
    initial_coordinator_data.last_read_time = none ∧
    initial_coordinator_data.sw_version = none :=
  ⟨rfl, rfl, rfl, rfl, rfl, rfl⟩
